import Mathlib

/-!
Shallow embedding of `src/lib/model/TitmouseVolumeNet.py` (class
`TitmouseVolumeNet`).  Tensor scalars are modelled as rationals; batched
tensors as lists (batch dimension outermost).  The neural sub-modules that
live in files not present under `src/` (HGFilter, VolumeEncoder,
SurfaceClassifier's MLP core, DepthNormalizer, the projection of
BasePIFuNet) and the PyTorch sampling primitives (`index`, `F.grid_sample`)
are abstract function parameters collected in a `Nets` record: the claims
under scrutiny are about how `TitmouseVolumeNet` composes them, not about
their internals.  Fallible Python operations (attribute access on a field
that `__init__` created only for some configurations, `list[-1]` on an
empty list, division by zero) are modelled with `Option`.
-/

namespace Titmouse

/-- Tensor scalar values. -/
abbrev Scalar := ℚ

/-- A 3D point (one column of a `[B, 3, N]` tensor). -/
abbrev Vec3 := Scalar × Scalar × Scalar

/-- A 2D image-plane coordinate. -/
abbrev XY := Scalar × Scalar

/-- A per-point feature vector (the channel dimension). -/
abbrev FeatVec := List Scalar

/-- A batched 2D feature map, abstracted as what `BasePIFuNet.index` can do
with it: given the batch index and a 2D location, return the sampled
feature vector. -/
abbrev ImFeat := ℕ → XY → FeatVec

/-- A batched volumetric feature map, abstracted as what `F.grid_sample`
can do with it: given the batch index and a 3D location, return the
bilinearly interpolated (border padded) feature vector. -/
abbrev VoxFeat := ℕ → Vec3 → FeatVec

/-- A `[reso, reso, reso]` voxel grid of scalars. -/
abbrev Grid3 := List (List (List Scalar))

/-- Predictions / labels: batch of per-point channel vectors
(`[B, Res, N]` in the source, stored here point-major). -/
abbrev PredT := List (List FeatVec)

/-- Input images, opaque (only ever passed to the abstract image filter). -/
abbrev Img := ℕ

/-- A calibration matrix, opaque (only ever passed to the abstract
projection and normalizer). -/
abbrev Calib := ℕ

/-- An optional image-space coordinate transform, opaque. -/
abbrev Transform := ℕ

/-- The configuration options the embedded code reads
(`opt.feat_type`, `opt.reso_grid`, `opt.skip_hourglass`; the remaining
fields are read only by the abstracted sub-modules). -/
structure Opt where
  num_views : ℕ
  feat_type : String
  reso_grid : ℕ
  skip_hourglass : Bool
  no_residual : Bool
  pn_hid_dim : ℕ

/-- The sub-modules of `TitmouseVolumeNet`, abstracted as functions.
`image_filter` is `HGFilter(opt)` returning
`(im_feat_list, tmpx, normx)`; `vf_core` is `VolumeEncoder(1, 32)`
returning a list of volumetric feature stacks; `cls_core` is the
`SurfaceClassifier` MLP before its `last_op`; `last_op` is the
`nn.Sigmoid()` passed as `last_op` at construction; `normalizer` is
`DepthNormalizer(opt)`; `projection` is `BasePIFuNet.projection`
(orthogonal/perspective per `projection_mode`); `error_term` is the
`nn.BCELoss()` default. -/
structure Nets where
  image_filter : Img → List ImFeat × ImFeat × ImFeat
  vf_core : List (List Grid3) → List VoxFeat
  cls_core : FeatVec → FeatVec
  last_op : Scalar → Scalar
  normalizer : Scalar → Calib → Scalar
  projection : Vec3 → Calib → Option Transform → Vec3
  error_term : PredT → PredT → Scalar

/-- The mutable attributes of a `TitmouseVolumeNet` instance that
`filter`, `pcd_filter`, `query`, `get_error` and `forward` read and
write, plus the `training` flag inherited from `nn.Module`. -/
structure TVNState where
  training : Bool
  im_feat_list : List ImFeat
  tmpx : ImFeat
  normx : ImFeat
  voxel_feat_list : List VoxFeat
  intermediate_preds_list : List PredT
  preds : Option PredT
  labels : Option PredT

/-- Squared Euclidean distance between two 3D points. -/
def sqdist (p q : Vec3) : Scalar :=
  (p.1 - q.1) ^ 2 + (p.2.1 - q.2.1) ^ 2 + (p.2.2 - q.2.2) ^ 2

/-- Linear scan for the index of the nearest point, carrying the running
best index and best squared distance; ties keep the earlier index. -/
def nn_go (p : Vec3) : List Vec3 → ℕ → ℕ → Scalar → ℕ
  | [], _, best, _ => best
  | q :: rest, i, best, bd =>
    if sqdist p q < bd then nn_go p rest (i + 1) i (sqdist p q)
    else nn_go p rest (i + 1) best bd

/-- Model of `scipy.spatial.cKDTree.query(x)` restricted to the index it
returns: the index of a nearest neighbour of `p` among the tree's points
(`self.kdtree = KDTree(self.grid_points)` in `__init__`). -/
def kdtree_query (grid : List Vec3) (p : Vec3) : ℕ :=
  match grid with
  | [] => 0
  | q :: rest => nn_go p rest 1 0 (sqdist p q)

/-- Modelled from the spec: `create_grid_points_from_bounds` lives in
`lib/mesh_util`, which is not under `src/`; the spec describes the grid as
the `reso_grid^3` grid points spanning `[-1, 1]^3` (a meshgrid of
`reso`-point linspaces between the bounds). -/
def linspace (mn mx : Scalar) (reso : ℕ) : List Scalar :=
  (List.range reso).map
    (fun i : ℕ => mn + (mx - mn) * (i : Scalar) / ((reso : Scalar) - 1))

def create_grid_points_from_bounds (mn mx : Scalar) (reso : ℕ) : List Vec3 :=
  (linspace mn mx reso).flatMap (fun x =>
    (linspace mn mx reso).flatMap (fun y =>
      (linspace mn mx reso).map (fun z => (x, y, z))))

/-- The body of the batch loop of `pcd_filter`: start from a zero vector
with one entry per grid point, query the k-d tree with every input point
of this batch element, and write `1` at each returned index
(`occupancies[b, idx] = 1`). -/
def occupancies_of (grid : List Vec3) (pts : List Vec3) : List Scalar :=
  (pts.map (kdtree_query grid)).foldl (fun v i => v.set i 1)
    (List.replicate grid.length 0)

/-- Split a list into consecutive groups of `k` (the row-major reshape
step underlying `occupancies.view(B, reso, reso, reso)`). -/
def chunk (k : ℕ) (l : List α) : List (List α) :=
  if l.isEmpty ∨ k = 0 then [] else l.take k :: chunk k (l.drop k)
termination_by l.length
decreasing_by
  rename_i h
  push_neg at h
  have h1 : l.length ≠ 0 := by
    intro hl
    exact absurd (List.isEmpty_iff.mpr (List.length_eq_zero.mp hl)) h.1
  have h2 : 0 < k := Nat.pos_of_ne_zero h.2
  simpa using Nat.sub_lt (Nat.pos_of_ne_zero h1) h2

/-- Reshape a flat vector of `reso^3` scalars into a
`[reso, reso, reso]` voxel grid (`view(B, reso, reso, reso)` per batch
element). -/
def reshape3 (reso : ℕ) (v : List Scalar) : Grid3 :=
  chunk reso (chunk reso v)

/-- Python tail slice `l[-k:]`: the last `k` elements for `k > 0`, and the
whole list for `k = 0` (since `l[-0:]` is `l[0:]`). -/
def pyTailSlice (l : List α) (k : ℕ) : List α :=
  if k = 0 then l else l.drop (l.length - k)

/-- The in-image test of `query`:
`(xy[:, 0] >= -1.0) & (xy[:, 0] <= 1.0) & (xy[:, 1] >= -1.0) & (xy[:, 1] <= 1.0)`. -/
def in_img (xy : XY) : Bool :=
  decide (-1 ≤ xy.1) && decide (xy.1 ≤ 1) && decide (-1 ≤ xy.2) &&
    decide (xy.2 ≤ 1)

/-- `BasePIFuNet.index(feat, uv)` (file not under `src/`), abstracted:
sample the batched 2D feature map at the given batch index and location. -/
def index (f : ImFeat) (b : ℕ) (xy : XY) : FeatVec := f b xy

/-- `F.grid_sample(input=voxel_feat, grid=vgrid, align_corners=False,
mode='bilinear', padding_mode='border')` abstracted: sample the batched
volumetric feature map at the given batch index and 3D location. -/
def grid_sample (v : VoxFeat) (b : ℕ) (p : Vec3) : FeatVec := v b p

/-- Modelled from the spec: `SurfaceClassifier` lives in a file not under
`src/`; per the spec it is the per-point classifier, built in `__init__`
with `last_op=nn.Sigmoid()`, so it applies its MLP and then the last
operation elementwise. -/
def surface_classifier (nets : Nets) (x : FeatVec) : FeatVec :=
  (nets.cls_core x).map nets.last_op

/-- Access to `self.volume_filter`: `__init__` creates this attribute
(`self.volume_filter = VolumeEncoder(1, 32)`) only in the
`opt.feat_type == 'volume'` branch, so reading it under any other
`feat_type` raises `AttributeError`, modelled as `none`. -/
def volume_filter (opt : Opt) (nets : Nets) :
    Option (List (List Grid3) → List VoxFeat) :=
  if opt.feat_type = "volume" then some nets.vf_core else none

/-- `filter(self, images)`: run the hourglass image filter, store
`(im_feat_list, tmpx, normx)`; when not training keep only the last image
feature stack (`self.im_feat_list = [self.im_feat_list[-1]]`, which
raises on an empty list, modelled as `none`). -/
def filter (nets : Nets) (s : TVNState) (images : Img) : Option TVNState :=
  let r := nets.image_filter images
  if s.training then
    some { s with im_feat_list := r.1, tmpx := r.2.1, normx := r.2.2 }
  else
    match r.1.getLast? with
    | none => none
    | some l => some { s with im_feat_list := [l], tmpx := r.2.1, normx := r.2.2 }

/-- `pcd_filter(self, pcd)`: voxelize each batch element's point cloud by
k-d-tree nearest-grid-point occupancy, reshape to `[reso,reso,reso]`,
`unsqueeze(1)` (the singleton channel list), run the volumetric encoder,
and when not training keep only its last feature stack.  The `pcd`
argument is the `[B, 3, N]` tensor already read point-major, matching
`pcd.transpose(1, 2)`. -/
def pcd_filter (opt : Opt) (nets : Nets) (s : TVNState)
    (pcd : List (List Vec3)) : Option TVNState :=
  let grid := create_grid_points_from_bounds (-1) 1 opt.reso_grid
  let voxel_kp_pred : List Grid3 :=
    pcd.map (fun pts => reshape3 opt.reso_grid (occupancies_of grid pts))
  match volume_filter opt nets with
  | none => none
  | some vf =>
    let vfl := vf (voxel_kp_pred.map (fun g => [g]))
    if s.training then some { s with voxel_feat_list := vfl }
    else
      match vfl.getLast? with
      | none => none
      | some l => some { s with voxel_feat_list := [l] }

/-- The per-point body of the `query` loop: project the point, split
`xy`/`z`, grid-sample the voxel features at the projected 3D coordinates,
concatenate `[index(im_feat, xy), pt_feat_3D, z]` (plus the `tmpx`
feature when `opt.skip_hourglass`), classify, and zero the result when
the point projects outside the image
(`pred = in_img[:, None].float() * self.surface_classifier(...)`). -/
def queryPoint (opt : Opt) (nets : Nets) (im_feat : ImFeat) (voxel_feat : VoxFeat)
    (tmpx : ImFeat) (cal : Calib) (tr : Option Transform) (b : ℕ) (p : Vec3) :
    FeatVec :=
  let xyz := nets.projection p cal tr
  let xy : XY := (xyz.1, xyz.2.1)
  let z : Scalar := xyz.2.2
  let pt_feat_3D := grid_sample voxel_feat b xyz
  let point_local_feat :=
    index im_feat b xy ++ pt_feat_3D ++ [z] ++
      (if opt.skip_hourglass then index tmpx b xy else [])
  (surface_classifier nets point_local_feat).map
    (fun c => (if in_img xy then (1 : Scalar) else 0) * c)

/-- One intermediate prediction of `query` (the loop body over a pair
`(im_feat, voxel_feat)`), evaluated at every batch element and point. -/
def stack_pred (opt : Opt) (nets : Nets) (im_feat : ImFeat) (voxel_feat : VoxFeat)
    (tmpx : ImFeat) (points : List (List Vec3)) (calibs : List Calib)
    (tr : Option Transform) : PredT :=
  (points.zip calibs).enum.map
    (fun bc => bc.2.1.map (queryPoint opt nets im_feat voxel_feat tmpx bc.2.2 tr bc.1))

/-- `query(self, points, calibs, transforms, labels)`: store labels when
given, compute `z_feat = self.normalizer(z, calibs)` (whose value the
rest of the method never reads), trim `self.im_feat_list` to its last
`len(self.voxel_feat_list)` stacks (a Python `[-k:]` slice), build one
prediction per zipped `(im_feat, voxel_feat)` pair, and set `self.preds`
to the last intermediate prediction (`[-1]` raises on an empty list,
modelled as `none`). -/
def query (opt : Opt) (nets : Nets) (s : TVNState) (points : List (List Vec3))
    (calibs : List Calib) (transforms : Option Transform)
    (labels : Option PredT) : Option TVNState :=
  let s0 := match labels with
    | some l => { s with labels := some l }
    | none => s
  let imL := pyTailSlice s.im_feat_list s.voxel_feat_list.length
  let ip := List.zipWith
    (fun imf vf => stack_pred opt nets imf vf s.tmpx points calibs transforms)
    imL s.voxel_feat_list
  match ip.getLast? with
  | none => none
  | some last =>
    some { s0 with im_feat_list := imL, intermediate_preds_list := ip,
                   preds := some last }

/-- Modelled from the spec: `BasePIFuNet.get_preds` is in a file not under
`src/`; per the claim text for `forward`, it returns `self.preds`, the
final prediction stored by `query`. -/
def get_preds (s : TVNState) : Option PredT := s.preds

/-- `get_error(self)`: sum `self.error_term(preds, self.labels)` over the
intermediate predictions and divide by their number.  With an empty
`intermediate_preds_list` the loop never runs and `error /= 0` is an
integer division by zero (`none`); with a non-empty list but no stored
labels the loop body's attribute access fails (`none`). -/
def get_error (nets : Nets) (s : TVNState) : Option Scalar :=
  if s.intermediate_preds_list = [] then none
  else
    match s.labels with
    | none => none
    | some lbl =>
      some ((s.intermediate_preds_list.map (fun p => nets.error_term p lbl)).sum /
        (s.intermediate_preds_list.length : Scalar))

/-- `forward(self, images, pcd, points, calibs, transforms, labels)`:
`filter`, then `pcd_filter`, then `query`, then return
`(self.get_preds(), self.get_error())`. -/
def forward (opt : Opt) (nets : Nets) (s : TVNState) (images : Img)
    (pcd : List (List Vec3)) (points : List (List Vec3)) (calibs : List Calib)
    (transforms : Option Transform) (labels : Option PredT) :
    Option (PredT × Scalar) :=
  (filter nets s images).bind fun s1 =>
  (pcd_filter opt nets s1 pcd).bind fun s2 =>
  (query opt nets s2 points calibs transforms labels).bind fun s3 =>
  (get_preds s3).bind fun res =>
  (get_error nets s3).map fun err => (res, err)

/-! Helper lemmas about the voxelization primitives. -/

theorem nn_go_lt (p : Vec3) (l : List Vec3) :
    ∀ (i best : ℕ) (bd : Scalar), best < i →
      nn_go p l i best bd < i + l.length := by
  induction l with
  | nil =>
    intro i best bd h
    simpa [nn_go] using h
  | cons q rest ih =>
    intro i best bd h
    simp only [nn_go]
    by_cases hc : sqdist p q < bd
    · simp only [hc, if_true]
      have := ih (i + 1) i (sqdist p q) (Nat.lt_succ_self i)
      simpa [Nat.add_comm, Nat.add_assoc, Nat.add_left_comm] using this
    · simp only [hc, if_false]
      have := ih (i + 1) best bd (Nat.lt_trans h (Nat.lt_succ_self i))
      simpa [Nat.add_comm, Nat.add_assoc, Nat.add_left_comm] using this

theorem kdtree_query_lt (grid : List Vec3) (p : Vec3) (h : grid ≠ []) :
    kdtree_query grid p < grid.length := by
  match grid with
  | [] => exact absurd rfl h
  | q :: rest =>
    have := nn_go_lt p rest 1 0 (sqdist p q) Nat.one_pos
    simpa [kdtree_query, Nat.add_comm] using this

theorem length_foldl_set (idxs : List ℕ) :
    ∀ v : List Scalar, (idxs.foldl (fun a i => a.set i 1) v).length = v.length := by
  induction idxs with
  | nil => intro v; rfl
  | cons i rest ih =>
    intro v
    simpa [List.foldl_cons] using (ih (v.set i 1)).trans (List.length_set v i 1)

theorem foldl_set_getElem? (idxs : List ℕ) :
    ∀ (v : List Scalar) (g : ℕ),
      (idxs.foldl (fun a i => a.set i 1) v)[g]? =
        if g ∈ idxs ∧ g < v.length then some 1 else v[g]? := by
  induction idxs with
  | nil =>
    intro v g
    simp
  | cons i rest ih =>
    intro v g
    rw [List.foldl_cons, ih (v.set i 1) g, List.length_set, List.getElem?_set]
    by_cases hlt : g < v.length
    · by_cases hmem : g ∈ rest
      · simp [hmem, hlt]
      · by_cases hig : i = g
        · simp [hmem, hlt, hig]
        · simp [hmem, hlt, hig, Ne.symm hig]
    · have hv : v[g]? = none := List.getElem?_eq_none (Nat.le_of_not_lt hlt)
      by_cases hig : i = g
      · simp [hlt, hig, hv]
      · simp [hlt, hig, hv]

theorem occupancies_of_getElem? (grid : List Vec3) (pts : List Vec3) (g : ℕ)
    (hg : g < grid.length) :
    (occupancies_of grid pts)[g]? =
      some (if ∃ p ∈ pts, kdtree_query grid p = g then 1 else 0) := by
  unfold occupancies_of
  rw [foldl_set_getElem?]
  by_cases hmem : g ∈ pts.map (kdtree_query grid)
  · have hcond : (∃ p ∈ pts, kdtree_query grid p = g) := by
      simpa [List.mem_map] using hmem
    simp [hmem, hg, List.length_replicate, hcond]
  · have hcond : ¬(∃ p ∈ pts, kdtree_query grid p = g) := by
      simpa [List.mem_map] using hmem
    simp [hmem, hcond, List.getElem?_replicate, hg]

theorem length_occupancies_of (grid : List Vec3) (pts : List Vec3) :
    (occupancies_of grid pts).length = grid.length := by
  unfold occupancies_of
  rw [length_foldl_set]
  exact List.length_replicate _ _

theorem length_flatMap_const {α β : Type} (l : List α) (f : α → List β) (n : ℕ)
    (h : ∀ a ∈ l, (f a).length = n) : (l.flatMap f).length = l.length * n := by
  induction l with
  | nil => simp
  | cons a rest ih =>
    rw [List.flatMap_cons, List.length_append, h a (List.mem_cons_self a rest),
      ih (fun b hb => h b (List.mem_cons_of_mem a hb)), List.length_cons]
    ring

theorem length_linspace (mn mx : Scalar) (reso : ℕ) :
    (linspace mn mx reso).length = reso := by
  rw [linspace, List.length_map, List.length_range]

theorem create_grid_length (mn mx : Scalar) (reso : ℕ) :
    (create_grid_points_from_bounds mn mx reso).length = reso ^ 3 := by
  unfold create_grid_points_from_bounds
  have h1 : ∀ x ∈ linspace mn mx reso,
      ((linspace mn mx reso).flatMap (fun y =>
        (linspace mn mx reso).map (fun z => (x, y, z)))).length = reso * reso := by
    intro x _
    rw [length_flatMap_const _ _ reso (fun y _ => by
      rw [List.length_map, length_linspace]), length_linspace]
  rw [length_flatMap_const _ _ (reso * reso) h1, length_linspace]
  ring

theorem mem_chunk {α : Type} (k : ℕ) (l : List α) :
    ∀ l' ∈ chunk k l, ∀ x ∈ l', x ∈ l := by
  induction l using chunk.induct k with
  | case1 l hl =>
    rw [chunk, if_pos hl]
    intro l' hl'
    simp at hl'
  | case2 l hl ih =>
    rw [chunk, if_neg hl]
    intro l' hl' x hx
    rcases List.mem_cons.mp hl' with h | h
    · subst h
      exact List.mem_of_mem_take hx
    · exact List.mem_of_mem_drop (ih l' h x hx)

theorem mem_occupancies_of (grid : List Vec3) (pts : List Vec3) :
    ∀ x ∈ occupancies_of grid pts, x = 0 ∨ x = 1 := by
  intro x hx
  obtain ⟨g, hget⟩ := List.mem_iff_getElem?.mp hx
  have hg : g < grid.length := by
    by_contra hge
    rw [List.getElem?_eq_none (by
      rw [length_occupancies_of]
      exact Nat.le_of_not_lt hge)] at hget
    exact Option.noConfusion hget
  rw [occupancies_of_getElem? grid pts g hg] at hget
  by_cases h : ∃ p ∈ pts, kdtree_query grid p = g
  · right
    rw [if_pos h] at hget
    exact (Option.some_inj.mp hget).symm
  · left
    rw [if_neg h] at hget
    exact (Option.some_inj.mp hget).symm

/-! Characterization of `query`. -/

/-- The list of intermediate predictions `query` computes from a state:
one `stack_pred` per pair zipped from the tail-sliced image features and
the voxel features. -/
def qip (opt : Opt) (nets : Nets) (s : TVNState) (points : List (List Vec3))
    (calibs : List Calib) (tr : Option Transform) : List PredT :=
  List.zipWith
    (fun imf vf => stack_pred opt nets imf vf s.tmpx points calibs tr)
    (pyTailSlice s.im_feat_list s.voxel_feat_list.length) s.voxel_feat_list

theorem query_eq (opt : Opt) (nets : Nets) (s : TVNState)
    (points : List (List Vec3)) (calibs : List Calib) (tr : Option Transform)
    (lbl : Option PredT) :
    query opt nets s points calibs tr lbl =
      match (qip opt nets s points calibs tr).getLast? with
      | none => none
      | some last =>
        some { (match lbl with
                | some l => { s with labels := some l }
                | none => s) with
               im_feat_list := pyTailSlice s.im_feat_list s.voxel_feat_list.length,
               intermediate_preds_list := qip opt nets s points calibs tr,
               preds := some last } := by
  rfl

theorem query_some_intermediate (opt : Opt) (nets : Nets) (s : TVNState)
    (points : List (List Vec3)) (calibs : List Calib) (tr : Option Transform)
    (lbl : Option PredT) (s' : TVNState)
    (h : query opt nets s points calibs tr lbl = some s') :
    s'.intermediate_preds_list = qip opt nets s points calibs tr ∧
      s'.preds = (qip opt nets s points calibs tr).getLast? ∧
      qip opt nets s points calibs tr ≠ [] := by
  rw [query_eq] at h
  cases hlast : (qip opt nets s points calibs tr).getLast? with
  | none => rw [hlast] at h; exact absurd h (by simp)
  | some last =>
    rw [hlast] at h
    have hs' := (Option.some_inj.mp h).symm
    subst hs'
    refine ⟨rfl, ?_, ?_⟩
    · rfl
    · intro hnil
      rw [hnil] at hlast
      exact Option.noConfusion hlast

theorem stack_pred_elem (opt : Opt) (nets : Nets) (imf : ImFeat) (vf : VoxFeat)
    (tmpx : ImFeat) (points : List (List Vec3)) (calibs : List Calib)
    (tr : Option Transform) (b n : ℕ) (pts : List Vec3) (cal : Calib) (p : Vec3)
    (hb1 : points[b]? = some pts) (hb2 : calibs[b]? = some cal)
    (hn : pts[n]? = some p) :
    ((stack_pred opt nets imf vf tmpx points calibs tr)[b]?.bind
        fun row => row[n]?) =
      some (queryPoint opt nets imf vf tmpx cal tr b p) := by
  have hzip : (points.zip calibs)[b]? = some (pts, cal) := by
    rw [List.zip_eq_zipWith, List.getElem?_zipWith', hb1, hb2]
    rfl
  unfold stack_pred
  rw [List.getElem?_map, List.getElem?_enum, hzip]
  simp only [Option.map_some', Option.some_bind]
  rw [List.getElem?_map, hn]
  rfl

theorem qip_elem (opt : Opt) (nets : Nets) (s : TVNState)
    (points : List (List Vec3)) (calibs : List Calib) (tr : Option Transform)
    (k b n : ℕ) (imf : ImFeat) (vf : VoxFeat) (pts : List Vec3) (cal : Calib)
    (p : Vec3)
    (hk1 : (pyTailSlice s.im_feat_list s.voxel_feat_list.length)[k]? = some imf)
    (hk2 : s.voxel_feat_list[k]? = some vf)
    (hb1 : points[b]? = some pts) (hb2 : calibs[b]? = some cal)
    (hn : pts[n]? = some p) :
    ((qip opt nets s points calibs tr)[k]?.bind
        fun pr => pr[b]?.bind fun row => row[n]?) =
      some (queryPoint opt nets imf vf s.tmpx cal tr b p) := by
  unfold qip
  rw [List.getElem?_zipWith', hk1, hk2]
  simp only [Option.map_some', Option.some_bind]
  exact stack_pred_elem opt nets imf vf s.tmpx points calibs tr b n pts cal p
    hb1 hb2 hn

theorem qip_length (opt : Opt) (nets : Nets) (s : TVNState)
    (points : List (List Vec3)) (calibs : List Calib) (tr : Option Transform) :
    (qip opt nets s points calibs tr).length =
      min s.im_feat_list.length s.voxel_feat_list.length := by
  unfold qip pyTailSlice
  rw [List.length_zipWith]
  by_cases h : s.voxel_feat_list.length = 0
  · simp [h]
  · rw [if_neg h, List.length_drop]
    omega

theorem filter_not_training (nets : Nets) (s : TVNState) (images : Img)
    (s' : TVNState) (htr : s.training = false)
    (h : filter nets s images = some s') :
    ∃ l, (nets.image_filter images).1.getLast? = some l ∧
      s'.im_feat_list = [l] := by
  unfold filter at h
  rw [htr] at h
  simp only [Bool.false_eq_true, if_false] at h
  cases hlast : (nets.image_filter images).1.getLast? with
  | none => rw [hlast] at h; exact Option.noConfusion h
  | some l =>
    rw [hlast] at h
    exact ⟨l, rfl, by rw [← Option.some_inj.mp h]⟩

theorem filter_training (nets : Nets) (s : TVNState) (images : Img)
    (htr : s.training = true) :
    filter nets s images =
      some { s with im_feat_list := (nets.image_filter images).1,
                    tmpx := (nets.image_filter images).2.1,
                    normx := (nets.image_filter images).2.2 } := by
  unfold filter
  rw [htr]
  simp

/-- The exact argument `pcd_filter` hands to the volumetric encoder: each
batch element's occupancy vector reshaped to a voxel grid, with the
`unsqueeze(1)` singleton channel dimension. -/
def voxel_input (opt : Opt) (pcd : List (List Vec3)) : List (List Grid3) :=
  (pcd.map (fun pts =>
    reshape3 opt.reso_grid
      (occupancies_of (create_grid_points_from_bounds (-1) 1 opt.reso_grid)
        pts))).map (fun g => [g])

theorem pcd_filter_not_volume (opt : Opt) (nets : Nets) (s : TVNState)
    (pcd : List (List Vec3)) (h : opt.feat_type ≠ "volume") :
    pcd_filter opt nets s pcd = none := by
  unfold pcd_filter volume_filter
  rw [if_neg h]

theorem pcd_filter_volume_training (opt : Opt) (nets : Nets) (s : TVNState)
    (pcd : List (List Vec3)) (hft : opt.feat_type = "volume")
    (htr : s.training = true) :
    pcd_filter opt nets s pcd =
      some { s with voxel_feat_list := nets.vf_core (voxel_input opt pcd) } := by
  unfold pcd_filter volume_filter voxel_input
  rw [if_pos hft, htr]
  simp

theorem pcd_filter_not_training (opt : Opt) (nets : Nets) (s : TVNState)
    (pcd : List (List Vec3)) (s' : TVNState) (htr : s.training = false)
    (h : pcd_filter opt nets s pcd = some s') :
    ∃ l, (nets.vf_core (voxel_input opt pcd)).getLast? = some l ∧
      s'.voxel_feat_list = [l] := by
  unfold pcd_filter volume_filter at h
  unfold voxel_input
  by_cases hft : opt.feat_type = "volume"
  · rw [if_pos hft, htr] at h
    simp only [Bool.false_eq_true, if_false] at h
    cases hlast : (nets.vf_core
        ((pcd.map (fun pts => reshape3 opt.reso_grid
          (occupancies_of (create_grid_points_from_bounds (-1) 1 opt.reso_grid)
            pts))).map (fun g => [g]))).getLast? with
    | none => rw [hlast] at h; exact Option.noConfusion h
    | some l =>
      rw [hlast] at h
      exact ⟨l, rfl, by rw [← Option.some_inj.mp h]⟩
  · rw [if_neg hft] at h
    exact Option.noConfusion h

/-! Concrete instantiations used to exercise the theorems on closed
inputs. -/

/-- A concrete configuration with the volumetric feature type and a
2-point-per-axis grid. -/
def opt0 : Opt :=
  { num_views := 1, feat_type := "volume", reso_grid := 2,
    skip_hourglass := false, no_residual := false, pn_hid_dim := 4 }

/-- A concrete configuration with a non-volumetric feature type. -/
def optPoint : Opt :=
  { num_views := 1, feat_type := "point", reso_grid := 2,
    skip_hourglass := false, no_residual := false, pn_hid_dim := 4 }

/-- A concrete image feature map: at any batch index, the feature vector
holds the sum of the two sampled coordinates. -/
def imf0 : ImFeat := fun _ xy => [xy.1 + xy.2]

/-- A concrete volumetric feature map: the sampled x-coordinate. -/
def vox0 : VoxFeat := fun _ p => [p.1]

/-- Clamp to `[0, 1]`; a stand-in with the same range as `nn.Sigmoid`. -/
def clamp01 (x : Scalar) : Scalar := if x < 0 then 0 else if 1 < x then 1 else x

/-- A concrete instantiation of all the abstracted sub-modules. -/
def nets0 : Nets :=
  { image_filter := fun _ => ([imf0], imf0, imf0)
    vf_core := fun _ => [vox0]
    cls_core := fun v => [v.sum]
    last_op := clamp01
    normalizer := fun z _ => z
    projection := fun p _ _ => p
    error_term := fun _ _ => 0 }

/-- A concrete freshly-initialized module state in training mode. -/
def s0 : TVNState :=
  { training := true, im_feat_list := [], tmpx := imf0, normx := imf0,
    voxel_feat_list := [], intermediate_preds_list := [], preds := none,
    labels := none }

/-- A concrete state in evaluation mode. -/
def sEval : TVNState := { s0 with training := false }

/-- The concrete grid of `opt0`: the 8 corners of `[-1, 1]^3`. -/
def grid0 : List Vec3 := create_grid_points_from_bounds (-1) 1 opt0.reso_grid

/-- A one-batch one-point concrete point cloud. -/
def pcd0 : List (List Vec3) := [[((1 : Scalar), (1 : Scalar), (1 : Scalar))]]

/-! The claims. -/

/-- C2: for every point cloud, `pcd_filter` builds, per batch element, an
occupancy vector over the `reso_grid^3` grid points spanning `[-1,1]^3`
whose `g`-th cell is `1` iff grid point `g` is the k-d-tree nearest grid
point of at least one of the input points of that batch element and `0`
otherwise; these vectors, reshaped to `[reso, reso, reso]` voxel grids,
are the input handed to the volumetric encoder. -/
theorem claim_C2 (opt : Opt) (nets : Nets) (s : TVNState)
    (pcd : List (List Vec3)) :
    (create_grid_points_from_bounds (-1) 1 opt.reso_grid).length =
        opt.reso_grid ^ 3 ∧
    (∀ pts g,
      g < (create_grid_points_from_bounds (-1) 1 opt.reso_grid).length →
      (occupancies_of (create_grid_points_from_bounds (-1) 1 opt.reso_grid)
          pts)[g]? =
        some (if ∃ p ∈ pts,
            kdtree_query (create_grid_points_from_bounds (-1) 1 opt.reso_grid)
              p = g then 1 else 0)) ∧
    (∀ s', s.training = true → pcd_filter opt nets s pcd = some s' →
      s'.voxel_feat_list = nets.vf_core (voxel_input opt pcd)) := by
  refine ⟨create_grid_length (-1) 1 opt.reso_grid,
    fun pts g hg => occupancies_of_getElem? _ pts g hg, ?_⟩
  intro s' htr h
  by_cases hft : opt.feat_type = "volume"
  · rw [pcd_filter_volume_training opt nets s pcd hft htr] at h
    rw [← Option.some_inj.mp h]
  · rw [pcd_filter_not_volume opt nets s pcd hft] at h
    exact Option.noConfusion h

unseal Rat.add Rat.mul Rat.sub Rat.inv in
/-- Witness for C2 at a concrete input: the 2-per-axis grid has 8 points,
and the point `(1,1,1)` marks exactly the grid cell of its nearest grid
point, index 7. -/
theorem claim_C2_witness :
    grid0.length = opt0.reso_grid ^ 3 ∧
    (occupancies_of grid0 [((1 : Scalar), 1, 1)])[7]? = some 1 ∧
    ∀ s', s0.training = true → pcd_filter opt0 nets0 s0 pcd0 = some s' →
      s'.voxel_feat_list = nets0.vf_core (voxel_input opt0 pcd0) := by
  have h := claim_C2 opt0 nets0 s0 pcd0
  refine ⟨h.1, ?_, h.2.2⟩
  have h2 := h.2.1 [((1 : Scalar), 1, 1)] 7 (by decide)
  rw [grid0, h2, if_pos (by decide)]

/-- C4: every entry of the occupancy vector built by `pcd_filter` is `0`
or `1`, and hence so is every entry of the voxel grid fed to the
volumetric encoder. -/
theorem claim_C4 (reso : ℕ) (grid : List Vec3) (pts : List Vec3) :
    (∀ x ∈ occupancies_of grid pts, x = 0 ∨ x = 1) ∧
    (∀ plane ∈ reshape3 reso (occupancies_of grid pts),
      ∀ row ∈ plane, ∀ x ∈ row, x = 0 ∨ x = 1) := by
  refine ⟨mem_occupancies_of grid pts, ?_⟩
  intro plane hplane row hrow x hx
  exact mem_occupancies_of grid pts x
    (mem_chunk reso _ row (mem_chunk reso _ plane hplane row hrow) x hx)

unseal Rat.add Rat.mul Rat.sub Rat.inv in
/-- Witness for C4 at a concrete input: the entry `1` written for the
point `(1,1,1)` is indeed binary. -/
theorem claim_C4_witness : (1 : Scalar) = 0 ∨ (1 : Scalar) = 1 :=
  (claim_C4 2 grid0 [((1 : Scalar), 1, 1)]).1 1 (by decide)

/-- C6 (amended): `pcd_filter` applies the volumetric CNN
`self.volume_filter` to the voxelized occupancy grid, but it is total
only when `opt.feat_type == 'volume'`: for every other `feat_type` the
`volume_filter` attribute was never created and `pcd_filter` fails. -/
theorem claim_C6 (opt : Opt) (nets : Nets) (s : TVNState)
    (pcd : List (List Vec3)) :
    (opt.feat_type ≠ "volume" → pcd_filter opt nets s pcd = none) ∧
    (opt.feat_type = "volume" → s.training = true →
      pcd_filter opt nets s pcd =
        some { s with voxel_feat_list := nets.vf_core (voxel_input opt pcd) }) ∧
    (opt.feat_type = "volume" → s.training = false →
      nets.vf_core (voxel_input opt pcd) ≠ [] →
      (pcd_filter opt nets s pcd).isSome = true) := by
  refine ⟨pcd_filter_not_volume opt nets s pcd,
    fun hft htr => pcd_filter_volume_training opt nets s pcd hft htr, ?_⟩
  intro hft htr hne
  unfold pcd_filter volume_filter voxel_input at *
  rw [if_pos hft, htr]
  simp only [Bool.false_eq_true, if_false]
  cases hlast : (nets.vf_core
      ((pcd.map (fun pts => reshape3 opt.reso_grid
        (occupancies_of (create_grid_points_from_bounds (-1) 1 opt.reso_grid)
          pts))).map (fun g => [g]))).getLast? with
  | none =>
    exact absurd (List.getLast?_eq_none_iff.mp (by
      rw [← hlast, List.map_map])) (by rw [List.map_map] at hne; exact hne)
  | some l => rfl

/-- Counterexample to C6 as stated: with `feat_type = 'point'` the
`volume_filter` attribute does not exist and `pcd_filter` fails on a
well-formed point cloud. -/
theorem claim_C6_counterexample :
    optPoint.feat_type = "point" ∧ pcd_filter optPoint nets0 s0 pcd0 = none :=
  ⟨rfl, rfl⟩

/-- Witness for C6 at a concrete input: with `feat_type = 'volume'` and a
training-mode state, `pcd_filter` succeeds and stores the volumetric
CNN's output. -/
theorem claim_C6_witness :
    pcd_filter opt0 nets0 s0 pcd0 =
      some { s0 with voxel_feat_list := nets0.vf_core (voxel_input opt0 pcd0) } :=
  (claim_C6 opt0 nets0 s0 pcd0).2.1 rfl rfl

/-- C9: `get_error` returns the arithmetic mean of
`error_term(pred, labels)` over the intermediate predictions — their sum
divided by their number — provided `query` stored labels and produced at
least one intermediate prediction; with an empty
`intermediate_preds_list` the division by zero makes it fail. -/
theorem claim_C9 (nets : Nets) (s : TVNState) :
    (∀ lbl, s.labels = some lbl → s.intermediate_preds_list ≠ [] →
      get_error nets s =
        some ((s.intermediate_preds_list.map
            (fun p => nets.error_term p lbl)).sum /
          (s.intermediate_preds_list.length : Scalar))) ∧
    (s.intermediate_preds_list = [] → get_error nets s = none) := by
  constructor
  · intro lbl hlbl hne
    unfold get_error
    rw [if_neg hne, hlbl]
  · intro he
    unfold get_error
    rw [if_pos he]

/-- A concrete state after a successful training-mode `query`: one
intermediate prediction and stored labels. -/
def sC9 : TVNState :=
  { s0 with intermediate_preds_list := [[[[(1 : Scalar)]]]],
            labels := some [[[(1 : Scalar)]]] }

/-- Witness for C9 at a concrete input. -/
theorem claim_C9_witness :
    get_error nets0 sC9 =
      some ((sC9.intermediate_preds_list.map
          (fun p => nets0.error_term p [[[(1 : Scalar)]]])).sum /
        (sC9.intermediate_preds_list.length : Scalar)) :=
  (claim_C9 nets0 sC9).1 [[[(1 : Scalar)]]] rfl (List.cons_ne_nil _ _)

/-- C3: `forward` is exactly the composition `filter`, then `pcd_filter`,
then `query`, and it returns the pair `(preds, error)` with `preds` the
final prediction stored by `query` (the last intermediate prediction)
and `error` the value of `get_error`. -/
theorem claim_C3 (opt : Opt) (nets : Nets) (s : TVNState) (images : Img)
    (pcd : List (List Vec3)) (points : List (List Vec3)) (calibs : List Calib)
    (tr : Option Transform) (lbl : Option PredT) (res : PredT) (err : Scalar) :
    forward opt nets s images pcd points calibs tr lbl = some (res, err) ↔
      ∃ s1 s2 s3, filter nets s images = some s1 ∧
        pcd_filter opt nets s1 pcd = some s2 ∧
        query opt nets s2 points calibs tr lbl = some s3 ∧
        s3.preds = some res ∧
        s3.preds = s3.intermediate_preds_list.getLast? ∧
        get_error nets s3 = some err := by
  unfold forward get_preds
  constructor
  · intro h
    rw [Option.bind_eq_some] at h
    obtain ⟨s1, h1, h⟩ := h
    rw [Option.bind_eq_some] at h
    obtain ⟨s2, h2, h⟩ := h
    rw [Option.bind_eq_some] at h
    obtain ⟨s3, h3, h⟩ := h
    rw [Option.bind_eq_some] at h
    obtain ⟨r, hr, h⟩ := h
    rw [Option.map_eq_some'] at h
    obtain ⟨e, he, hpair⟩ := h
    cases hpair
    refine ⟨s1, s2, s3, h1, h2, h3, hr, ?_, he⟩
    obtain ⟨hip, hpr, _⟩ := query_some_intermediate opt nets s2 points calibs
      tr lbl s3 h3
    rw [hpr, hip]
  · rintro ⟨s1, s2, s3, h1, h2, h3, hres, _, herr⟩
    rw [h1, Option.some_bind, h2, Option.some_bind, h3, Option.some_bind,
      hres, Option.some_bind, herr]
    rfl

/-- Concrete query points, calibrations and labels for the witnesses. -/
def pts0 : List (List Vec3) := [[((0 : Scalar), 0, 0)]]

/-- A single trivial calibration token. -/
def cals0 : List Calib := [0]

/-- Concrete labels of the same shape as the predictions. -/
def lbl0 : PredT := [[[(0 : Scalar)]]]

unseal Rat.add Rat.mul Rat.sub Rat.inv in
/-- Witness for C3 at a concrete input: the concrete `forward` run
decomposes into its three phases. -/
theorem claim_C3_witness :
    ∃ s1 s2 s3, filter nets0 s0 0 = some s1 ∧
      pcd_filter opt0 nets0 s1 pcd0 = some s2 ∧
      query opt0 nets0 s2 pts0 cals0 none (some lbl0) = some s3 ∧
      s3.preds = some [[[(0 : Scalar)]]] ∧
      s3.preds = s3.intermediate_preds_list.getLast? ∧
      get_error nets0 s3 = some 0 :=
  (claim_C3 opt0 nets0 s0 0 pcd0 pts0 cals0 none (some lbl0)
    [[[(0 : Scalar)]]] 0).mp (by decide)

/-- C1 (amended): after `filter` and `pcd_filter` have run, the
prediction `query` produces for each query point is the 0/1 in-image
indicator of the point's projected `xy` multiplied by the output of the
per-point surface classifier applied to the concatenation of (i) the
image feature stack indexed at `xy`, (ii) the volumetric feature
grid-sampled at the projected 3D coordinates, and (iii) the depth `z`
of the projection (plus the `tmpx` feature when `opt.skip_hourglass` is
set). -/
theorem claim_C1 (opt : Opt) (nets : Nets) (s : TVNState)
    (points : List (List Vec3)) (calibs : List Calib) (tr : Option Transform)
    (lbl : Option PredT) (s' : TVNState) (k b n : ℕ) (imf : ImFeat)
    (vf : VoxFeat) (pts : List Vec3) (cal : Calib) (p : Vec3) (xyz : Vec3)
    (h : query opt nets s points calibs tr lbl = some s')
    (hk1 : (pyTailSlice s.im_feat_list s.voxel_feat_list.length)[k]? = some imf)
    (hk2 : s.voxel_feat_list[k]? = some vf)
    (hb1 : points[b]? = some pts) (hb2 : calibs[b]? = some cal)
    (hn : pts[n]? = some p)
    (hproj : nets.projection p cal tr = xyz) :
    (s'.intermediate_preds_list[k]?.bind
        fun pr => pr[b]?.bind fun row => row[n]?) =
      some ((nets.cls_core
          (index imf b (xyz.1, xyz.2.1) ++ grid_sample vf b xyz ++ [xyz.2.2] ++
            (if opt.skip_hourglass then index s.tmpx b (xyz.1, xyz.2.1)
             else []))).map
        (fun c => (if in_img (xyz.1, xyz.2.1) then (1 : Scalar) else 0) *
          nets.last_op c)) := by
  rw [(query_some_intermediate opt nets s points calibs tr lbl s' h).1,
    qip_elem opt nets s points calibs tr k b n imf vf pts cal p hk1 hk2 hb1
      hb2 hn]
  subst hproj
  unfold queryPoint surface_classifier index grid_sample
  rw [List.map_map]
  rfl

/-- A state as left by a non-training `filter` and `pcd_filter`: one
image feature stack and one voxel feature stack. -/
def sQ : TVNState :=
  { s0 with im_feat_list := [imf0], voxel_feat_list := [vox0] }

unseal Rat.add Rat.mul Rat.sub Rat.inv in
/-- Witness for C1 at a concrete input: for the in-image point `(0,0,0)`
the stored prediction is the masked classifier output over the
concatenated features. -/
theorem claim_C1_witness :
    ((query opt0 nets0 sQ pts0 cals0 none none).bind
        fun s' => s'.intermediate_preds_list[0]?.bind
          fun pr => pr[0]?.bind fun row => row[0]?) =
      some ((nets0.cls_core
          (index imf0 0 ((0 : Scalar), 0) ++
            grid_sample vox0 0 ((0 : Scalar), 0, 0) ++ [(0 : Scalar)] ++
            (if opt0.skip_hourglass then index sQ.tmpx 0 ((0 : Scalar), 0)
             else []))).map
        (fun c => (if in_img ((0 : Scalar), 0) then (1 : Scalar) else 0) *
          nets0.last_op c)) := by
  have hq : query opt0 nets0 sQ pts0 cals0 none none =
      some ((query opt0 nets0 sQ pts0 cals0 none none).get (by decide)) :=
    (Option.some_get _).symm
  rw [hq, Option.some_bind]
  exact claim_C1 opt0 nets0 sQ pts0 cals0 none none _ 0 0 0 imf0 vox0
    [((0 : Scalar), 0, 0)] 0 ((0 : Scalar), 0, 0) ((0 : Scalar), 0, 0)
    hq.symm.symm rfl rfl rfl rfl rfl rfl

unseal Rat.add Rat.mul Rat.sub Rat.inv in
/-- Counterexample to C1 as stated: for a point whose projection falls
outside the image plane, the stored prediction is `0` while the surface
classifier's output on the concatenated features is `1`, so the
prediction is not the classifier's output — the in-image mask
intervenes. -/
theorem claim_C1_counterexample :
    ((query opt0 nets0 sQ [[((2 : Scalar), 0, 0)]] cals0 none none).bind
        fun s' => s'.intermediate_preds_list[0]?.bind
          fun pr => pr[0]?.bind fun row => row[0]?) =
      some [(0 : Scalar)] ∧
    (nets0.cls_core
        (index imf0 0 ((2 : Scalar), 0) ++
          grid_sample vox0 0 ((2 : Scalar), 0, 0) ++ [(0 : Scalar)] ++
          [])).map nets0.last_op = [(1 : Scalar)] ∧
    (0 : Scalar) ≠ 1 :=
  ⟨by decide, by decide, by decide⟩

/-- C7: for every query point whose projected image-plane coordinates
fall outside `[-1,1] × [-1,1]` in either coordinate, every prediction
`query` produces for that point is exactly `0`, whatever the sampled
features are. -/
theorem claim_C7 (opt : Opt) (nets : Nets) (s : TVNState)
    (points : List (List Vec3)) (calibs : List Calib) (tr : Option Transform)
    (lbl : Option PredT) (s' : TVNState) (k b n : ℕ) (pts : List Vec3)
    (cal : Calib) (p : Vec3)
    (h : query opt nets s points calibs tr lbl = some s')
    (hb1 : points[b]? = some pts) (hb2 : calibs[b]? = some cal)
    (hn : pts[n]? = some p)
    (hout : in_img ((nets.projection p cal tr).1,
      (nets.projection p cal tr).2.1) = false) :
    ∀ pr row v, s'.intermediate_preds_list[k]? = some pr →
      pr[b]? = some row → row[n]? = some v → ∀ x ∈ v, x = 0 := by
  intro pr row v hk hb hnv x hx
  have hip := (query_some_intermediate opt nets s points calibs tr lbl s' h).1
  rw [hip] at hk
  obtain ⟨imf, vf, hk1, hk2, -⟩ := List.getElem?_zipWith_eq_some.mp hk
  have helem := qip_elem opt nets s points calibs tr k b n imf vf pts cal p
    hk1 hk2 hb1 hb2 hn
  rw [hk, Option.some_bind, hb, Option.some_bind, hnv] at helem
  have hv : v = queryPoint opt nets imf vf s.tmpx cal tr b p :=
    Option.some_inj.mp helem
  rw [hv] at hx
  unfold queryPoint at hx
  dsimp only at hx
  rw [hout] at hx
  obtain ⟨c, -, hc⟩ := List.mem_map.mp hx
  rw [← hc]
  simp

unseal Rat.add Rat.mul Rat.sub Rat.inv in
/-- Witness for C7 at a concrete input: the single channel stored for the
out-of-image point `(2,0,0)` is `0`. -/
theorem claim_C7_witness : (0 : Scalar) = 0 :=
  claim_C7 opt0 nets0 sQ [[((2 : Scalar), 0, 0)]] cals0 none none _ 0 0 0
    [((2 : Scalar), 0, 0)] 0 ((2 : Scalar), 0, 0)
    (Option.some_get (by decide)).symm rfl rfl rfl (by decide)
    [[[(0 : Scalar)]]] [[(0 : Scalar)]] [(0 : Scalar)]
    (by decide) (by decide) (by decide) 0 (by decide)

theorem clamp01_bounds (x : Scalar) : 0 ≤ clamp01 x ∧ clamp01 x ≤ 1 := by
  unfold clamp01
  by_cases h1 : x < 0
  · simp [h1]
  · by_cases h2 : 1 < x
    · simp [h1, h2]
    · push_neg at h1 h2
      simp [not_lt.mpr h1, not_lt.mpr h2, h1, h2]

/-- C5: when the classifier's last operation maps into `[0,1]` (as
`nn.Sigmoid` does), every element of every intermediate prediction
produced by `query`, and of the final `preds`, lies in `[0,1]`: each
prediction is the classifier output (ending in the last operation)
multiplied elementwise by the 0/1 in-image mask. -/
theorem claim_C5 (opt : Opt) (nets : Nets) (s : TVNState)
    (points : List (List Vec3)) (calibs : List Calib) (tr : Option Transform)
    (lbl : Option PredT) (s' : TVNState)
    (hσ : ∀ x, 0 ≤ nets.last_op x ∧ nets.last_op x ≤ 1)
    (h : query opt nets s points calibs tr lbl = some s') :
    (∀ pr ∈ s'.intermediate_preds_list, ∀ row ∈ pr, ∀ v ∈ row, ∀ x ∈ v,
      0 ≤ x ∧ x ≤ 1) ∧
    (∀ pr, s'.preds = some pr → ∀ row ∈ pr, ∀ v ∈ row, ∀ x ∈ v,
      0 ≤ x ∧ x ≤ 1) := by
  obtain ⟨hip, hpreds, -⟩ :=
    query_some_intermediate opt nets s points calibs tr lbl s' h
  have main : ∀ pr ∈ qip opt nets s points calibs tr, ∀ row ∈ pr,
      ∀ v ∈ row, ∀ x ∈ v, 0 ≤ x ∧ x ≤ 1 := by
    intro pr hpr row hrow v hv x hx
    obtain ⟨k, hk⟩ := List.mem_iff_getElem?.mp hpr
    obtain ⟨imf, vf, -, -, hfk⟩ := List.getElem?_zipWith_eq_some.mp hk
    rw [← hfk] at hrow
    unfold stack_pred at hrow
    obtain ⟨bc, -, hbc⟩ := List.mem_map.mp hrow
    rw [← hbc] at hv
    obtain ⟨p, -, hp⟩ := List.mem_map.mp hv
    rw [← hp] at hx
    unfold queryPoint at hx
    dsimp only at hx
    obtain ⟨c, hcmem, hc⟩ := List.mem_map.mp hx
    unfold surface_classifier at hcmem
    obtain ⟨d, -, hd⟩ := List.mem_map.mp hcmem
    rw [← hc, ← hd]
    obtain ⟨h0, h1⟩ := hσ d
    constructor <;> split <;> simp [h0, h1]
  refine ⟨by rw [hip]; exact main, ?_⟩
  intro pr hpr row hrow v hv x hx
  rw [hpreds] at hpr
  exact main pr (List.mem_of_getLast?_eq_some hpr) row hrow v hv x hx

unseal Rat.add Rat.mul Rat.sub Rat.inv in
/-- Witness for C5 at a concrete input: the single channel stored by the
concrete query lies in `[0,1]`. -/
theorem claim_C5_witness : 0 ≤ (0 : Scalar) ∧ (0 : Scalar) ≤ 1 :=
  (claim_C5 opt0 nets0 sQ pts0 cals0 none none _
    (fun x => clamp01_bounds x) (Option.some_get (by decide)).symm).1
    [[[(0 : Scalar)]]] (by decide) [[(0 : Scalar)]] (by decide)
    [(0 : Scalar)] (by decide) 0 (by decide)

/-- C8: when the module is not in training mode, `filter` leaves exactly
one image feature stack (the last hourglass stack) and `pcd_filter`
exactly one voxel feature stack, so a subsequent `query` produces exactly
one intermediate prediction and `preds` equals it; in general `query`
produces exactly `min(len(im_feat_list), len(voxel_feat_list))`
intermediate predictions, pairing the last `len(voxel_feat_list)` image
stacks with the voxel stacks in order. -/
theorem claim_C8 (opt : Opt) (nets : Nets) :
    (∀ s images s', s.training = false → filter nets s images = some s' →
      s'.im_feat_list.length = 1 ∧
        s'.im_feat_list.head? = (nets.image_filter images).1.getLast?) ∧
    (∀ s pcd s', s.training = false → pcd_filter opt nets s pcd = some s' →
      s'.voxel_feat_list.length = 1 ∧
        s'.voxel_feat_list.head? =
          (nets.vf_core (voxel_input opt pcd)).getLast?) ∧
    (∀ s points calibs tr lbl s',
      query opt nets s points calibs tr lbl = some s' →
      s'.intermediate_preds_list.length =
        min s.im_feat_list.length s.voxel_feat_list.length) ∧
    (∀ s points calibs tr lbl s',
      s.im_feat_list.length = 1 → s.voxel_feat_list.length = 1 →
      query opt nets s points calibs tr lbl = some s' →
      s'.intermediate_preds_list.length = 1 ∧
        s'.preds = s'.intermediate_preds_list.head?) ∧
    (∀ s points calibs tr lbl s' k imfk vfk,
      s.voxel_feat_list.length ≠ 0 →
      s.im_feat_list[s.im_feat_list.length - s.voxel_feat_list.length + k]? =
        some imfk →
      s.voxel_feat_list[k]? = some vfk →
      query opt nets s points calibs tr lbl = some s' →
      s'.intermediate_preds_list[k]? =
        some (stack_pred opt nets imfk vfk s.tmpx points calibs tr)) := by
  refine ⟨?_, ?_, ?_, ?_, ?_⟩
  · intro s images s' htr h
    obtain ⟨l, hl, him⟩ := filter_not_training nets s images s' htr h
    rw [him, hl]
    exact ⟨rfl, rfl⟩
  · intro s pcd s' htr h
    obtain ⟨l, hl, hvx⟩ := pcd_filter_not_training opt nets s pcd s' htr h
    rw [hvx, hl]
    exact ⟨rfl, rfl⟩
  · intro s points calibs tr lbl s' h
    rw [(query_some_intermediate opt nets s points calibs tr lbl s' h).1]
    exact qip_length opt nets s points calibs tr
  · intro s points calibs tr lbl s' him hvx h
    obtain ⟨hip, hpreds, -⟩ :=
      query_some_intermediate opt nets s points calibs tr lbl s' h
    have hlen : s'.intermediate_preds_list.length = 1 := by
      rw [hip, qip_length, him, hvx]
      rfl
    refine ⟨hlen, ?_⟩
    obtain ⟨a, ha⟩ := List.length_eq_one.mp hlen
    rw [hpreds, ← hip, ha]
    rfl
  · intro s points calibs tr lbl s' k imfk vfk hv0 hk1 hk2 h
    rw [(query_some_intermediate opt nets s points calibs tr lbl s' h).1]
    unfold qip pyTailSlice
    rw [if_neg hv0, List.getElem?_zipWith', List.getElem?_drop, hk1, hk2]
    rfl

unseal Rat.add Rat.mul Rat.sub Rat.inv in
/-- Witness for C8 at a concrete input: an evaluation-mode `filter` and
`pcd_filter` leave singleton feature lists, and the subsequent `query`
stores exactly one intermediate prediction equal to `preds`. -/
theorem claim_C8_witness :
    (((filter nets0 sEval 0).get (by decide)).im_feat_list.length = 1 ∧
      ((filter nets0 sEval 0).get (by decide)).im_feat_list.head? =
        (nets0.image_filter 0).1.getLast?) ∧
    ((query opt0 nets0 sQ pts0 cals0 none none).get
        (by decide)).intermediate_preds_list.length =
      min sQ.im_feat_list.length sQ.voxel_feat_list.length := by
  constructor
  · exact (claim_C8 opt0 nets0).1 sEval 0 _ rfl (Option.some_get _).symm
  · exact (claim_C8 opt0 nets0).2.2.1 sQ pts0 cals0 none none _
      (Option.some_get _).symm

end Titmouse
